import Mathlib

/-!
# Verification of the framing-shop pricing / estimation engine

Shallow embedding of `src/shared/pricing.ts`.  JavaScript numbers are
modelled as exact rationals (`ℚ`); `Math.round x` is `⌊x + 1/2⌋`; the
`Infinity` upper bound of the last pricing tier is `Option.none`; the
JavaScript `||` fallback on a table lookup is modelled with its falsiness
semantics (`undefined` and `0` both fall through to the default); the
truthiness test on the optional `matType` string treats both `undefined`
and the empty string as "no mat".
-/

/-- Embeds the TS interface `PricingTier`.  `maxSize = none` models the
`Infinity` upper bound of the catch-all last tier. -/
structure PricingTier where
  minSize : ℚ
  maxSize : Option ℚ
  basePrice : ℚ
  laborMultiplier : ℚ
  deriving DecidableEq, Repr

/-- Embeds the TS interface `MaterialPricing`: four string-keyed unit-price
tables (records embedded as association lists). -/
structure MaterialPricing where
  frames : List (String × ℚ)
  mats : List (String × ℚ)
  glass : List (String × ℚ)
  backing : List (String × ℚ)
  deriving DecidableEq, Repr

/-- The complexity enum of values simple, medium and complex. -/
inductive Complexity where
  | simple
  | medium
  | complex
  deriving DecidableEq, Repr

/-- The priority enum of values standard, rush and express. -/
inductive Priority where
  | standard
  | rush
  | express
  deriving DecidableEq, Repr

/-- Embeds the TS interface `OrderSpecs`.  Optional fields become `Option`;
`rush?: boolean` is `Option Bool`. -/
structure OrderSpecs where
  imageWidth : ℚ
  imageHeight : ℚ
  matWidth : Option ℚ
  matHeight : Option ℚ
  frameStyle : String
  matType : Option String
  glassType : String
  backingType : String
  complexity : Complexity
  rush : Option Bool
  deriving DecidableEq, Repr

/-- The constant `PRICING_TIERS` from the source, verbatim. -/
def PRICING_TIERS : List PricingTier :=
  [ { minSize := 0, maxSize := some 64, basePrice := 45, laborMultiplier := 1.0 },
    { minSize := 65, maxSize := some 144, basePrice := 65, laborMultiplier := 1.2 },
    { minSize := 145, maxSize := some 320, basePrice := 85, laborMultiplier := 1.4 },
    { minSize := 321, maxSize := some 576, basePrice := 125, laborMultiplier := 1.6 },
    { minSize := 577, maxSize := some 1024, basePrice := 185, laborMultiplier := 1.8 },
    { minSize := 1025, maxSize := some 1600, basePrice := 265, laborMultiplier := 2.0 },
    { minSize := 1601, maxSize := none, basePrice := 350, laborMultiplier := 2.5 } ]

/-- The constant `MATERIAL_PRICING` from the source, verbatim. -/
def MATERIAL_PRICING : MaterialPricing :=
  { frames :=
      [ ("basic-wood", 2.50), ("premium-wood", 4.50), ("metal-standard", 3.25),
        ("metal-premium", 5.75), ("ornate-gold", 8.50), ("contemporary", 6.25) ],
    mats :=
      [ ("standard", 0.15), ("conservation", 0.25), ("fabric", 0.35),
        ("specialty", 0.45) ],
    glass :=
      [ ("regular", 0.08), ("uv-protection", 0.18), ("museum", 0.35),
        ("anti-glare", 0.22) ],
    backing :=
      [ ("standard", 0.05), ("archival", 0.12), ("foam-core", 0.08) ] }

/-- The tier predicate `t => finishedArea >= t.minSize && finishedArea <= t.maxSize`
(`a ≤ Infinity` is always true). -/
def tierMatches (t : PricingTier) (a : ℚ) : Bool :=
  decide (t.minSize ≤ a) &&
    (match t.maxSize with
     | none => true
     | some m => decide (a ≤ m))

/-- Record access `table[key]` on a string-keyed record, as an association-list
lookup. -/
def tableGet (table : List (String × ℚ)) (key : String) : Option ℚ :=
  match table with
  | [] => none
  | (k, v) :: rest => if key = k then some v else tableGet rest key

/-- The JavaScript expression `v || d` applied to a table-lookup result:
`undefined` (here `none`) and `0` are falsy and fall through to the default. -/
def jsOr (v : Option ℚ) (d : ℚ) : ℚ :=
  match v with
  | some x => if x = 0 then d else x
  | none => d

/-- Truthiness of the optional string `specs.matType`: `undefined` and the
empty string are falsy; every other string is truthy. -/
def strTruthy : Option String → Bool
  | none => false
  | some s => decide ¬(s = "")

/-- Embeds `Math.round` on an exact rational: round half toward positive infinity. -/
def jsRound (x : ℚ) : ℤ := ⌊x + 1 / 2⌋

/-- Embeds `Math.round (x * 100) / 100`: rounding to two decimal places. -/
def round2 (x : ℚ) : ℚ := (jsRound (x * 100) : ℚ) / 100

/-- Embeds `const finishedWidth = specs.imageWidth + (specs.matWidth || 0) * 2`. -/
def finishedWidth (s : OrderSpecs) : ℚ := s.imageWidth + s.matWidth.getD 0 * 2

/-- Embeds `const finishedHeight = specs.imageHeight + (specs.matHeight || 0) * 2`. -/
def finishedHeight (s : OrderSpecs) : ℚ := s.imageHeight + s.matHeight.getD 0 * 2

/-- Embeds `const finishedArea = finishedWidth * finishedHeight`. -/
def finishedArea (s : OrderSpecs) : ℚ := finishedWidth s * finishedHeight s

/-- Embeds `const perimeter = (finishedWidth + finishedHeight) * 2`. -/
def perimeter (s : OrderSpecs) : ℚ := (finishedWidth s + finishedHeight s) * 2

/-- Embeds `PRICING_TIERS.find(...) || PRICING_TIERS[PRICING_TIERS.length - 1]`.
The dummy second argument of `getLastD` is irrelevant: `PRICING_TIERS` is a
non-empty literal, so `getLastD` is its last element. -/
def selectedTier (s : OrderSpecs) : PricingTier :=
  (PRICING_TIERS.find? (fun t => tierMatches t (finishedArea s))).getD
    (PRICING_TIERS.getLastD { minSize := 0, maxSize := none, basePrice := 0, laborMultiplier := 0 })

/-- Embeds `const basePrice = tier.basePrice`. -/
def basePrice (s : OrderSpecs) : ℚ := (selectedTier s).basePrice

/-- Embeds `const framePrice = (MATERIAL_PRICING.frames[specs.frameStyle] || 3.0) * perimeter`. -/
def framePrice (s : OrderSpecs) : ℚ :=
  jsOr (tableGet MATERIAL_PRICING.frames s.frameStyle) 3.0 * perimeter s

/-- Embeds `const matPrice = specs.matType ? (MATERIAL_PRICING.mats[specs.matType] || 0.15) * finishedArea : 0`. -/
def matPrice (s : OrderSpecs) : ℚ :=
  if strTruthy s.matType then
    jsOr (tableGet MATERIAL_PRICING.mats (s.matType.getD "")) 0.15 * finishedArea s
  else 0

/-- Embeds `const glassPrice = (MATERIAL_PRICING.glass[specs.glassType] || 0.08) * finishedArea`. -/
def glassPrice (s : OrderSpecs) : ℚ :=
  jsOr (tableGet MATERIAL_PRICING.glass s.glassType) 0.08 * finishedArea s

/-- Embeds `const backingPrice = (MATERIAL_PRICING.backing[specs.backingType] || 0.05) * finishedArea`. -/
def backingPrice (s : OrderSpecs) : ℚ :=
  jsOr (tableGet MATERIAL_PRICING.backing s.backingType) 0.05 * finishedArea s

/-- The object literal `{ simple: 1.0, medium: 1.3, complex: 1.7 }[specs.complexity]`. -/
def complexityMultiplier : Complexity → ℚ
  | .simple => 1.0
  | .medium => 1.3
  | .complex => 1.7

/-- Embeds `const laborPrice = basePrice * tier.laborMultiplier * complexityMultiplier`. -/
def laborPrice (s : OrderSpecs) : ℚ :=
  basePrice s * (selectedTier s).laborMultiplier * complexityMultiplier s.complexity

/-- Embeds `const rushFee = specs.rush ? (framePrice + matPrice + glassPrice + laborPrice) * 0.5 : 0`. -/
def rushFee (s : OrderSpecs) : ℚ :=
  if s.rush.getD false then (framePrice s + matPrice s + glassPrice s + laborPrice s) * 0.5
  else 0

/-- Embeds `const subtotal = basePrice + framePrice + matPrice + glassPrice + backingPrice + laborPrice + rushFee`. -/
def subtotal (s : OrderSpecs) : ℚ :=
  basePrice s + framePrice s + matPrice s + glassPrice s + backingPrice s + laborPrice s + rushFee s

/-- Embeds `const tax = subtotal * 0.0875`. -/
def tax (s : OrderSpecs) : ℚ := subtotal s * 0.0875

/-- Embeds `const total = subtotal + tax`. -/
def total (s : OrderSpecs) : ℚ := subtotal s + tax s

/-- The `breakdown` object of the return value of `calculateFramingPrice`. -/
structure Breakdown where
  basePrice : ℚ
  framePrice : ℚ
  matPrice : ℚ
  glassPrice : ℚ
  backingPrice : ℚ
  laborPrice : ℚ
  rushFee : ℚ
  subtotal : ℚ
  tax : ℚ
  total : ℚ
  deriving DecidableEq, Repr

/-- The `finishedSize` object of the return value of `calculateFramingPrice`. -/
structure FinishedSize where
  width : ℚ
  height : ℚ
  area : ℚ
  deriving DecidableEq, Repr

/-- The full return value of `calculateFramingPrice`. -/
structure PriceResult where
  breakdown : Breakdown
  finishedSize : FinishedSize
  deriving DecidableEq, Repr

/-- Embeds `calculateFramingPrice`, assembling the output exactly as the source does:
every breakdown field except `basePrice` is wrapped in `Math.round(_ * 100) / 100`
at the point of output (`basePrice` is returned as-is), and the finished-size
values are not rounded. -/
def calculateFramingPrice (s : OrderSpecs) : PriceResult :=
  { breakdown :=
      { basePrice := basePrice s,
        framePrice := round2 (framePrice s),
        matPrice := round2 (matPrice s),
        glassPrice := round2 (glassPrice s),
        backingPrice := round2 (backingPrice s),
        laborPrice := round2 (laborPrice s),
        rushFee := round2 (rushFee s),
        subtotal := round2 (subtotal s),
        tax := round2 (tax s),
        total := round2 (total s) },
    finishedSize :=
      { width := finishedWidth s,
        height := finishedHeight s,
        area := finishedArea s } }

/-- The object literal `{ simple: 3, medium: 5, complex: 8 }[orderComplexity]`. -/
def baseProcessingDays : Complexity → ℚ
  | .simple => 3
  | .medium => 5
  | .complex => 8

/-- The object literal `{ standard: 1.0, rush: 0.5, express: 0.25 }[priority]`. -/
def priorityAdjustment : Priority → ℚ
  | .standard => 1.0
  | .rush => 0.5
  | .express => 0.25

/-- Embeds `const workloadDelay = Math.max(0, (currentWorkload - 15) * 0.5)`. -/
def workloadDelay (currentWorkload : ℚ) : ℚ := max 0 ((currentWorkload - 15) * 0.5)

/-- Embeds `const totalDays = Math.ceil((baseProcessingDays + workloadDelay) * priorityAdjustment)`. -/
def totalDays (currentWorkload : ℚ) (c : Complexity) (p : Priority) : ℤ :=
  ⌈(baseProcessingDays c + workloadDelay currentWorkload) * priorityAdjustment p⌉

/-- JS `Date.prototype.getDay` on a date given as a day count since the epoch
1970-01-01 (a Thursday): `0` is Sunday, ..., `6` is Saturday. -/
def getDay (d : ℤ) : ℤ := (d + 4) % 7

/-- The `while (getDay == 0 || getDay == 6) date += 1` weekend-skip loop of
`calculateEstimatedCompletion`, with explicit fuel.  The loop advances at most
two days before reaching a weekday, so any fuel of at least 2 computes the
fixpoint of the loop; `skipWeekends` runs it with a conservative fuel of 7. -/
def skipWeekendsFuel : ℕ → ℤ → ℤ
  | 0, d => d
  | fuel + 1, d =>
    if getDay d = 0 ∨ getDay d = 6 then skipWeekendsFuel fuel (d + 1) else d

/-- The weekend-skip loop of `calculateEstimatedCompletion`. -/
def skipWeekends (d : ℤ) : ℤ := skipWeekendsFuel 7 d

/-- Embeds `calculateEstimatedCompletion`, with the current date (which the source
reads from the execution environment with `new Date()`) made an explicit
parameter `today`, given as a day count since the epoch.  The returned value
is the day count of the completion date. -/
def calculateEstimatedCompletion (today : ℤ) (currentWorkload : ℚ)
    (orderComplexity : Complexity) (priority : Priority) : ℤ :=
  skipWeekends (today + totalDays currentWorkload orderComplexity priority)

/-- The worked example of the spec: a 16×20 image with a 2-inch mat border,
contemporary frame, conservation mat, UV glass, archival backing, medium
complexity, no rush. -/
def exampleSpecs : OrderSpecs :=
  { imageWidth := 16
    imageHeight := 20
    matWidth := some 2
    matHeight := some 2
    frameStyle := "contemporary"
    matType := some "conservation"
    glassType := "uv-protection"
    backingType := "archival"
    complexity := .medium
    rush := some false }

/-- A specs record whose finished area is 64.5 square inches: a fractional
area that falls in the gap between the first tier (max 64) and the second
tier (min 65). -/
def gapSpecs : OrderSpecs :=
  { imageWidth := 8.0625
    imageHeight := 8
    matWidth := none
    matHeight := none
    frameStyle := "basic-wood"
    matType := none
    glassType := "regular"
    backingType := "standard"
    complexity := .simple
    rush := none }

/-- Whatever tier the calculator selects is an element of `PRICING_TIERS`:
either `find?` returned it, or the fallback returned the last element. -/
lemma selectedTier_mem (s : OrderSpecs) : selectedTier s ∈ PRICING_TIERS := by
  unfold selectedTier
  cases h : List.find? (fun t => tierMatches t (finishedArea s)) PRICING_TIERS with
  | some t => simpa using List.mem_of_find?_eq_some h
  | none =>
      have hlast : PRICING_TIERS.getLastD
          { minSize := 0, maxSize := none, basePrice := 0, laborMultiplier := 0 } =
          { minSize := 1601, maxSize := none, basePrice := 350, laborMultiplier := 2.5 } := rfl
      simp [Option.getD, hlast, PRICING_TIERS]

/-- Every base price in the tier table is a whole dollar amount, so rounding it to cents
is the identity. -/
lemma round2_basePrice (t : PricingTier) (ht : t ∈ PRICING_TIERS) :
    round2 t.basePrice = t.basePrice := by
  fin_cases ht <;> norm_num [round2, jsRound]

/-- C1 (counterexample): at the concrete input `gapSpecs` the finished area is
64.5 ≥ 0, yet *no* tier of `PRICING_TIERS` matches it (so "exactly one tier
matches every non-negative area" is false), `find?` comes back empty, and the
fallback branch *is* taken: the calculator charges the base price 350 of the
catch-all last tier for an 8×8-inch frame. -/
theorem tier_gap_counterexample :
    finishedArea gapSpecs = 64.5 ∧ (0 : ℚ) ≤ finishedArea gapSpecs ∧
    PRICING_TIERS.countP (fun t => tierMatches t (finishedArea gapSpecs)) = 0 ∧
    List.find? (fun t => tierMatches t (finishedArea gapSpecs)) PRICING_TIERS = none ∧
    (calculateFramingPrice gapSpecs).breakdown.basePrice = 350 := by
  have ha : finishedArea gapSpecs = 64.5 := by
    norm_num [finishedArea, finishedWidth, finishedHeight, gapSpecs]
  refine ⟨ha, by rw [ha]; norm_num, ?_, ?_, ?_⟩
  · rw [ha]
    norm_num [PRICING_TIERS, tierMatches, List.countP_cons, List.countP_nil]
  · rw [ha]
    norm_num [PRICING_TIERS, tierMatches, List.find?]
  · show basePrice gapSpecs = 350
    rw [basePrice, selectedTier, ha]
    norm_num [PRICING_TIERS, tierMatches, List.find?, List.getLastD]

set_option maxHeartbeats 1000000 in
/-- C1 (amended): restricted to whole-number finished areas the tiers do
partition the range: for every natural number `n`, exactly one tier of
`PRICING_TIERS` matches `n`, and the tier search succeeds, so the last-tier
fallback branch is not taken for integer areas.  (For fractional areas inside
the unit-wide gaps between consecutive tiers — e.g. 64.5 — no tier matches and
the fallback is taken; see the counterexample.) -/
theorem tier_partition_integer_areas (n : ℕ) :
    PRICING_TIERS.countP (fun t => tierMatches t (n : ℚ)) = 1 ∧
    (List.find? (fun t => tierMatches t (n : ℚ)) PRICING_TIERS).isSome = true := by
  have hc : PRICING_TIERS.countP (fun t => tierMatches t (n : ℚ)) = 1 := by
    simp only [PRICING_TIERS, tierMatches, List.countP_cons, List.countP_nil,
      Bool.and_eq_true, decide_eq_true_eq, Nat.cast_le_ofNat, Nat.ofNat_le_cast,
      Nat.cast_nonneg]
    norm_num
    split_ifs <;> omega
  refine ⟨hc, ?_⟩
  rw [List.find?_isSome]
  exact List.countP_pos_iff.mp (hc ▸ Nat.one_pos)

/-- C2: for every input, the pre-rounding subtotal is exactly the sum of the
seven pre-rounding components; the output `tax` field is the pre-rounding
subtotal times the 8.75% rate, rounded to cents at output; the output `total`
field is the pre-rounding `subtotal + tax`, rounded to cents at output; and
every breakdown field equals its pre-rounding value rounded to two decimals
only at the point of output (`basePrice` is not even passed through the
rounding call in the source, but it is a whole dollar amount, so it too equals
its rounded value). -/
theorem breakdown_rounding_pipeline (s : OrderSpecs) :
    subtotal s = basePrice s + framePrice s + matPrice s + glassPrice s +
      backingPrice s + laborPrice s + rushFee s ∧
    (calculateFramingPrice s).breakdown.tax = round2 (subtotal s * 0.0875) ∧
    (calculateFramingPrice s).breakdown.total = round2 (subtotal s + tax s) ∧
    (calculateFramingPrice s).breakdown.subtotal = round2 (subtotal s) ∧
    (calculateFramingPrice s).breakdown.framePrice = round2 (framePrice s) ∧
    (calculateFramingPrice s).breakdown.matPrice = round2 (matPrice s) ∧
    (calculateFramingPrice s).breakdown.glassPrice = round2 (glassPrice s) ∧
    (calculateFramingPrice s).breakdown.backingPrice = round2 (backingPrice s) ∧
    (calculateFramingPrice s).breakdown.laborPrice = round2 (laborPrice s) ∧
    (calculateFramingPrice s).breakdown.rushFee = round2 (rushFee s) ∧
    (calculateFramingPrice s).breakdown.basePrice = round2 (basePrice s) := by
  refine ⟨rfl, rfl, rfl, rfl, rfl, rfl, rfl, rfl, rfl, rfl, ?_⟩
  exact (round2_basePrice _ (selectedTier_mem s)).symm

/-- C3: the worked example — a 16×20 image with a 2-inch mat all around,
contemporary frame, conservation mat, UV glass, archival backing, medium
complexity, no rush — produces exactly the finished size and breakdown stated
in the spec. -/
theorem calculateFramingPrice_example :
    (calculateFramingPrice exampleSpecs).finishedSize.width = 20 ∧
    (calculateFramingPrice exampleSpecs).finishedSize.height = 24 ∧
    (calculateFramingPrice exampleSpecs).finishedSize.area = 480 ∧
    (calculateFramingPrice exampleSpecs).breakdown.basePrice = 125 ∧
    (calculateFramingPrice exampleSpecs).breakdown.framePrice = 550 ∧
    (calculateFramingPrice exampleSpecs).breakdown.matPrice = 120 ∧
    (calculateFramingPrice exampleSpecs).breakdown.glassPrice = 86.4 ∧
    (calculateFramingPrice exampleSpecs).breakdown.backingPrice = 57.6 ∧
    (calculateFramingPrice exampleSpecs).breakdown.laborPrice = 260 ∧
    (calculateFramingPrice exampleSpecs).breakdown.subtotal = 1199 ∧
    (calculateFramingPrice exampleSpecs).breakdown.tax = 104.91 ∧
    (calculateFramingPrice exampleSpecs).breakdown.total = 1303.91 := by
  norm_num +decide [calculateFramingPrice, round2, jsRound, total, tax, subtotal,
    basePrice, framePrice, matPrice, glassPrice, backingPrice, laborPrice, rushFee,
    selectedTier, complexityMultiplier, PRICING_TIERS, MATERIAL_PRICING, tierMatches,
    tableGet, jsOr, strTruthy, List.find?, finishedArea, finishedWidth, finishedHeight,
    perimeter, exampleSpecs]

/-- C4: the pre-rounding rush fee is half of (frame + mat + glass + labor)
exactly when `rush` is `true`, and `0` when `rush` is `false` or absent.
Backing and base price do not appear in the surcharge base. -/
theorem rushFee_formula (s : OrderSpecs) :
    (s.rush = some true →
      rushFee s = 0.5 * (framePrice s + matPrice s + glassPrice s + laborPrice s)) ∧
    ((s.rush = some false ∨ s.rush = none) → rushFee s = 0) := by
  constructor
  · intro h
    rw [rushFee, h]
    norm_num [mul_comm]
  · rintro (h | h) <;> rw [rushFee, h] <;> norm_num

/-- Witness for C4 at concrete inputs: the worked example with `rush := true`
pays the 50% surcharge, and the worked example itself (`rush := false`) pays
none. -/
theorem rushFee_formula_witness :
    (rushFee { exampleSpecs with rush := some true } =
      0.5 * (framePrice { exampleSpecs with rush := some true } +
        matPrice { exampleSpecs with rush := some true } +
        glassPrice { exampleSpecs with rush := some true } +
        laborPrice { exampleSpecs with rush := some true })) ∧
    rushFee exampleSpecs = 0 :=
  ⟨(rushFee_formula { exampleSpecs with rush := some true }).1 rfl,
    (rushFee_formula exampleSpecs).2 (Or.inl rfl)⟩

/-- A table lookup with a positive JS `||` default is positive whenever every
table entry is positive. -/
lemma jsOr_tableGet_pos (l : List (String × ℚ)) (hl : ∀ q ∈ l, 0 < q.2)
    (k : String) (d : ℚ) (hd : 0 < d) : 0 < jsOr (tableGet l k) d := by
  induction l with
  | nil => simpa [tableGet, jsOr] using hd
  | cons a rest ih =>
      obtain ⟨ka, va⟩ := a
      by_cases hk : k = ka
      · have hva : 0 < va := hl (ka, va) (by simp)
        simp only [tableGet, hk, if_pos rfl]
        by_cases h0 : va = 0
        · simpa [jsOr, h0] using hd
        · simpa [jsOr, h0] using hva
      · simp only [tableGet, if_neg hk]
        exact ih fun q hq => hl q (List.mem_cons_of_mem _ hq)

/-- All frame unit prices of `MATERIAL_PRICING` are positive. -/
lemma frames_pos : ∀ q ∈ MATERIAL_PRICING.frames, 0 < q.2 := by
  intro q hq
  fin_cases hq <;> norm_num

/-- All mat unit prices of `MATERIAL_PRICING` are positive. -/
lemma mats_pos : ∀ q ∈ MATERIAL_PRICING.mats, 0 < q.2 := by
  intro q hq
  fin_cases hq <;> norm_num

/-- All glass unit prices of `MATERIAL_PRICING` are positive. -/
lemma glass_pos : ∀ q ∈ MATERIAL_PRICING.glass, 0 < q.2 := by
  intro q hq
  fin_cases hq <;> norm_num

/-- Every tier charges at least 45 as base price and has a labor multiplier of
at least 1. -/
lemma tier_bounds : ∀ t ∈ PRICING_TIERS, 45 ≤ t.basePrice ∧ 1 ≤ t.laborMultiplier := by
  intro t ht
  fin_cases ht <;> norm_num

/-- The labor component is always at least 45 (smallest base price times
multipliers that are at least 1). -/
lemma laborPrice_ge (s : OrderSpecs) : 45 ≤ laborPrice s := by
  obtain ⟨hb, hl⟩ := tier_bounds _ (selectedTier_mem s)
  have hc : 1 ≤ complexityMultiplier s.complexity := by
    cases s.complexity <;> norm_num [complexityMultiplier]
  rw [laborPrice, basePrice]
  have h1 : 45 * 1 ≤ (selectedTier s).basePrice * (selectedTier s).laborMultiplier :=
    mul_le_mul hb hl zero_le_one (by linarith)
  have h2 : 45 * 1 * 1 ≤
      (selectedTier s).basePrice * (selectedTier s).laborMultiplier *
        complexityMultiplier s.complexity :=
    mul_le_mul h1 hc zero_le_one (by nlinarith)
  linarith

/-- With positive image dimensions and non-negative mat borders, the finished
dimensions, area and perimeter are positive. -/
lemma finished_pos (s : OrderSpecs) (hw : 0 < s.imageWidth) (hh : 0 < s.imageHeight)
    (hmw : 0 ≤ s.matWidth.getD 0) (hmh : 0 ≤ s.matHeight.getD 0) :
    0 < finishedWidth s ∧ 0 < finishedHeight s ∧ 0 < finishedArea s ∧ 0 < perimeter s := by
  have h1 : 0 < finishedWidth s := by rw [finishedWidth]; linarith
  have h2 : 0 < finishedHeight s := by rw [finishedHeight]; linarith
  exact ⟨h1, h2, by rw [finishedArea]; positivity, by rw [perimeter]; nlinarith⟩

/-- With positive dimensions the rush-surcharge base
(frame + mat + glass + labor) is at least 45. -/
lemma rushBase_ge (s : OrderSpecs) (hw : 0 < s.imageWidth) (hh : 0 < s.imageHeight)
    (hmw : 0 ≤ s.matWidth.getD 0) (hmh : 0 ≤ s.matHeight.getD 0) :
    45 ≤ framePrice s + matPrice s + glassPrice s + laborPrice s := by
  obtain ⟨-, -, harea, hper⟩ := finished_pos s hw hh hmw hmh
  have hf : 0 ≤ framePrice s := by
    rw [framePrice]
    exact le_of_lt (mul_pos (jsOr_tableGet_pos _ frames_pos _ _ (by norm_num)) hper)
  have hm : 0 ≤ matPrice s := by
    rw [matPrice]
    split_ifs
    · exact le_of_lt (mul_pos (jsOr_tableGet_pos _ mats_pos _ _ (by norm_num)) harea)
    · exact le_refl 0
  have hg : 0 ≤ glassPrice s := by
    rw [glassPrice]
    exact le_of_lt (mul_pos (jsOr_tableGet_pos _ glass_pos _ _ (by norm_num)) harea)
  have hlab := laborPrice_ge s
  linarith

/-- If two pre-rounding amounts are at least a cent apart, their rounded
outputs are strictly ordered. -/
lemma round2_lt_of_gap {a b : ℚ} (h : a + 1 / 100 ≤ b) : round2 a < round2 b := by
  have h2 : (a * 100 + 1 / 2) + 1 ≤ b * 100 + 1 / 2 := by linarith
  have h3 : ⌊(a * 100 + 1 / 2) + 1⌋ ≤ ⌊b * 100 + 1 / 2⌋ := Int.floor_le_floor h2
  rw [Int.floor_add_one] at h3
  rw [round2, round2, jsRound, jsRound]
  have h4 : ((⌊a * 100 + 1 / 2⌋ : ℤ) : ℚ) < ((⌊b * 100 + 1 / 2⌋ : ℤ) : ℚ) := by
    exact_mod_cast by omega
  linarith

/-- C5 (counterexample): on the worked example, switching `rush` on raises the
returned total by 552.67, while 50% of (frame + mat + glass + labor) of the
rush-free call is 508.20 — the increase is *not* 50% of that base, because the
8.75% tax is also levied on the surcharge. -/
theorem rush_total_increase_counterexample :
    (calculateFramingPrice { exampleSpecs with rush := some true }).breakdown.total -
      (calculateFramingPrice exampleSpecs).breakdown.total = 552.67 ∧
    0.5 * ((calculateFramingPrice exampleSpecs).breakdown.framePrice +
      (calculateFramingPrice exampleSpecs).breakdown.matPrice +
      (calculateFramingPrice exampleSpecs).breakdown.glassPrice +
      (calculateFramingPrice exampleSpecs).breakdown.laborPrice) = 508.2 ∧
    0.5 * (framePrice exampleSpecs + matPrice exampleSpecs + glassPrice exampleSpecs +
      laborPrice exampleSpecs) = 508.2 ∧
    (552.67 : ℚ) ≠ 508.2 := by
  norm_num +decide [calculateFramingPrice, round2, jsRound, total, tax, subtotal,
    basePrice, framePrice, matPrice, glassPrice, backingPrice, laborPrice, rushFee,
    selectedTier, complexityMultiplier, PRICING_TIERS, MATERIAL_PRICING, tierMatches,
    tableGet, jsOr, strTruthy, List.find?, finishedArea, finishedWidth, finishedHeight,
    perimeter, exampleSpecs]

/-- C5 (amended): for otherwise-identical specs with positive image dimensions
and non-negative mat borders, the `rush = true` call returns a strictly larger
total than the `rush = false` call; the pre-rounding increase in the subtotal
is exactly 50% of (frame + mat + glass + labor) of the rush-free call, and the
pre-rounding increase in the total is 1.0875 times that surcharge (the
surcharge plus the 8.75% tax levied on it), not the bare surcharge. -/
theorem rush_increases_total (s : OrderSpecs)
    (hw : 0 < s.imageWidth) (hh : 0 < s.imageHeight)
    (hmw : 0 ≤ s.matWidth.getD 0) (hmh : 0 ≤ s.matHeight.getD 0) :
    (calculateFramingPrice { s with rush := some false }).breakdown.total <
      (calculateFramingPrice { s with rush := some true }).breakdown.total ∧
    subtotal { s with rush := some true } - subtotal { s with rush := some false } =
      0.5 * (framePrice { s with rush := some false } +
        matPrice { s with rush := some false } +
        glassPrice { s with rush := some false } +
        laborPrice { s with rush := some false }) ∧
    total { s with rush := some true } - total { s with rush := some false } =
      1.0875 * (0.5 * (framePrice { s with rush := some false } +
        matPrice { s with rush := some false } +
        glassPrice { s with rush := some false } +
        laborPrice { s with rush := some false })) := by
  have hsub : subtotal { s with rush := some true } - subtotal { s with rush := some false } =
      0.5 * (framePrice { s with rush := some false } +
        matPrice { s with rush := some false } +
        glassPrice { s with rush := some false } +
        laborPrice { s with rush := some false }) := by
    have hb : basePrice { s with rush := some true } =
        basePrice { s with rush := some false } := rfl
    have hf : framePrice { s with rush := some true } =
        framePrice { s with rush := some false } := rfl
    have hm : matPrice { s with rush := some true } =
        matPrice { s with rush := some false } := rfl
    have hg : glassPrice { s with rush := some true } =
        glassPrice { s with rush := some false } := rfl
    have hbk : backingPrice { s with rush := some true } =
        backingPrice { s with rush := some false } := rfl
    have hlb : laborPrice { s with rush := some true } =
        laborPrice { s with rush := some false } := rfl
    have h1 : rushFee { s with rush := some true } =
        (framePrice { s with rush := some true } + matPrice { s with rush := some true } +
          glassPrice { s with rush := some true } +
          laborPrice { s with rush := some true }) * 0.5 := rfl
    have h2 : rushFee { s with rush := some false } = 0 := rfl
    simp only [subtotal, h1, h2, hb, hf, hm, hg, hbk, hlb]
    ring
  have htot : total { s with rush := some true } - total { s with rush := some false } =
      1.0875 * (0.5 * (framePrice { s with rush := some false } +
        matPrice { s with rush := some false } +
        glassPrice { s with rush := some false } +
        laborPrice { s with rush := some false })) := by
    simp only [total, tax]
    linarith [hsub]
  have hbase : 45 ≤ framePrice { s with rush := some false } +
      matPrice { s with rush := some false } +
      glassPrice { s with rush := some false } +
      laborPrice { s with rush := some false } :=
    rushBase_ge { s with rush := some false } hw hh hmw hmh
  have hgap : total { s with rush := some false } + 1 / 100 ≤
      total { s with rush := some true } := by linarith [htot, hbase]
  exact ⟨round2_lt_of_gap hgap, hsub, htot⟩

/-- Witness for C5 at the worked example: all four hypotheses hold and the
amended conclusions follow by applying the theorem. -/
theorem rush_increases_total_witness :
    (calculateFramingPrice { exampleSpecs with rush := some false }).breakdown.total <
      (calculateFramingPrice { exampleSpecs with rush := some true }).breakdown.total ∧
    subtotal { exampleSpecs with rush := some true } -
        subtotal { exampleSpecs with rush := some false } =
      0.5 * (framePrice { exampleSpecs with rush := some false } +
        matPrice { exampleSpecs with rush := some false } +
        glassPrice { exampleSpecs with rush := some false } +
        laborPrice { exampleSpecs with rush := some false }) ∧
    total { exampleSpecs with rush := some true } -
        total { exampleSpecs with rush := some false } =
      1.0875 * (0.5 * (framePrice { exampleSpecs with rush := some false } +
        matPrice { exampleSpecs with rush := some false } +
        glassPrice { exampleSpecs with rush := some false } +
        laborPrice { exampleSpecs with rush := some false })) :=
  rush_increases_total exampleSpecs (by norm_num [exampleSpecs])
    (by norm_num [exampleSpecs]) (by norm_num [exampleSpecs]) (by norm_num [exampleSpecs])

/-- C6: if `matType` is absent or set to the no-mat sentinel (the empty
string, which JavaScript treats as falsy), the mat price is 0, both before and
after rounding — whatever the mat dimensions are. -/
theorem matPrice_no_mat (s : OrderSpecs)
    (h : s.matType = none ∨ s.matType = some "") :
    (calculateFramingPrice s).breakdown.matPrice = 0 ∧ matPrice s = 0 := by
  have hm : matPrice s = 0 := by
    rcases h with h | h <;> simp [matPrice, strTruthy, h]
  refine ⟨?_, hm⟩
  show round2 (matPrice s) = 0
  rw [hm]
  norm_num [round2, jsRound]

/-- Witness for C6: the worked example with the mat type removed (mat borders
still 2 inches on each side) has a zero mat price. -/
theorem matPrice_no_mat_witness :
    (calculateFramingPrice { exampleSpecs with matType := none }).breakdown.matPrice = 0 ∧
    matPrice { exampleSpecs with matType := none } = 0 :=
  matPrice_no_mat { exampleSpecs with matType := none } (Or.inl rfl)

/-- C7: the calculator is a total function (it is defined for every
`OrderSpecs` value and raises nothing), and each material category falls back
to its fixed default unit price — frame 3.0 per linear inch, mat 0.15, glass
0.08, backing 0.05 per square inch — whenever the requested key is absent from
its table. -/
theorem unknown_material_defaults (s : OrderSpecs) :
    (tableGet MATERIAL_PRICING.frames s.frameStyle = none →
      framePrice s = 3.0 * perimeter s) ∧
    (strTruthy s.matType = true →
      tableGet MATERIAL_PRICING.mats (s.matType.getD "") = none →
      matPrice s = 0.15 * finishedArea s) ∧
    (tableGet MATERIAL_PRICING.glass s.glassType = none →
      glassPrice s = 0.08 * finishedArea s) ∧
    (tableGet MATERIAL_PRICING.backing s.backingType = none →
      backingPrice s = 0.05 * finishedArea s) := by
  refine ⟨fun h => ?_, fun hm h => ?_, fun h => ?_, fun h => ?_⟩
  · rw [framePrice, h]
    norm_num [jsOr]
  · rw [matPrice, if_pos hm, h]
    norm_num [jsOr]
  · rw [glassPrice, h]
    norm_num [jsOr]
  · rw [backingPrice, h]
    norm_num [jsOr]

/-- A specs record all of whose material keys are missing from every pricing
table. -/
def unknownSpecs : OrderSpecs :=
  { imageWidth := 10
    imageHeight := 12
    matWidth := some 1
    matHeight := some 1
    frameStyle := "gilded-oak"
    matType := some "velvet"
    glassType := "plexi"
    backingType := "cardboard"
    complexity := .simple
    rush := none }

/-- Witness for C7: with four unrecognized material keys, every component is
priced at its category default. -/
theorem unknown_material_defaults_witness :
    framePrice unknownSpecs = 3.0 * perimeter unknownSpecs ∧
    matPrice unknownSpecs = 0.15 * finishedArea unknownSpecs ∧
    glassPrice unknownSpecs = 0.08 * finishedArea unknownSpecs ∧
    backingPrice unknownSpecs = 0.05 * finishedArea unknownSpecs := by
  obtain ⟨h1, h2, h3, h4⟩ := unknown_material_defaults unknownSpecs
  exact ⟨h1 rfl, h2 rfl rfl, h3 rfl, h4 rfl⟩

/-- Full behaviour of the weekend-skip loop: the result is a weekday, the loop
only moves forward, by at most two days, every skipped day is a weekend day,
and a fuel of 2 already computes the fixpoint (the loop runs at most twice). -/
lemma skipWeekends_spec (d : ℤ) :
    getDay (skipWeekends d) ≠ 0 ∧ getDay (skipWeekends d) ≠ 6 ∧
    d ≤ skipWeekends d ∧ skipWeekends d ≤ d + 2 ∧
    skipWeekendsFuel 2 d = skipWeekends d ∧
    (∀ x : ℤ, d ≤ x → x < skipWeekends d → getDay x = 0 ∨ getDay x = 6) := by
  simp only [skipWeekends, skipWeekendsFuel, getDay]
  split_ifs <;>
    refine ⟨by omega, by omega, by omega, by omega, by omega, fun x h1 h2 => by omega⟩

/-- C8: the tables and the day-count formula of the estimator are exactly as claimed —
base days {simple 3, medium 5, complex 8}, priority multipliers {standard 1,
rush 0.5, express 0.25}, `workloadDelay = max 0 ((w - 15) * 0.5)`,
`totalDays = ceil((base + delay) * multiplier)` — and the concrete call with
workload 20, complex, express yields 3 days before weekend adjustment. -/
theorem totalDays_formula (w : ℕ) (c : Complexity) (p : Priority) :
    baseProcessingDays .simple = 3 ∧ baseProcessingDays .medium = 5 ∧
    baseProcessingDays .complex = 8 ∧
    priorityAdjustment .standard = 1.0 ∧ priorityAdjustment .rush = 0.5 ∧
    priorityAdjustment .express = 0.25 ∧
    workloadDelay (w : ℚ) = max 0 (((w : ℚ) - 15) * 0.5) ∧
    totalDays (w : ℚ) c p =
      ⌈(baseProcessingDays c + workloadDelay (w : ℚ)) * priorityAdjustment p⌉ ∧
    totalDays 20 .complex .express = 3 := by
  refine ⟨rfl, rfl, rfl, rfl, rfl, rfl, rfl, rfl, ?_⟩
  rw [totalDays, baseProcessingDays, priorityAdjustment, workloadDelay]
  rw [show max (0 : ℚ) ((20 - 15) * 0.5) = 2.5 by rw [max_eq_right] <;> norm_num]
  rw [show ((8 : ℚ) + 2.5) * 0.25 = 21 / 8 by norm_num]
  rw [Int.ceil_eq_iff]
  norm_num

/-- C9: for every input, with the current date an explicit parameter, the
returned completion date is a weekday (never Saturday, day 6, nor Sunday,
day 0), it is never earlier than the current date plus `totalDays`, and every
day between `today + totalDays` (inclusive) and the returned date (exclusive)
is a weekend day — the adjustment only ever moves forward, one day at a time,
until a weekday is reached. -/
theorem completion_on_weekday (today : ℤ) (w : ℕ) (c : Complexity) (p : Priority) :
    getDay (calculateEstimatedCompletion today (w : ℚ) c p) ≠ 0 ∧
    getDay (calculateEstimatedCompletion today (w : ℚ) c p) ≠ 6 ∧
    today + totalDays (w : ℚ) c p ≤ calculateEstimatedCompletion today (w : ℚ) c p ∧
    (∀ x : ℤ, today + totalDays (w : ℚ) c p ≤ x →
      x < calculateEstimatedCompletion today (w : ℚ) c p →
      getDay x = 0 ∨ getDay x = 6) := by
  obtain ⟨h1, h2, h3, -, -, h6⟩ := skipWeekends_spec (today + totalDays (w : ℚ) c p)
  exact ⟨h1, h2, h3, h6⟩

/-- C10: for every non-negative integer workload and valid complexity and
priority, the day count is at least 1 (the smallest base is 3 days and the
smallest multiplier is 0.25, so the ceiling is at least 1), hence the returned
completion date is strictly later than the current date; and the weekend-skip
loop reaches its fixpoint within 2 iterations (fuel 2 computes the same result
as the loop). -/
theorem completion_strictly_future (today : ℤ) (w : ℕ) (c : Complexity) (p : Priority) :
    1 ≤ totalDays (w : ℚ) c p ∧
    today < calculateEstimatedCompletion today (w : ℚ) c p ∧
    skipWeekendsFuel 2 (today + totalDays (w : ℚ) c p) =
      calculateEstimatedCompletion today (w : ℚ) c p := by
  have h1 : 1 ≤ totalDays (w : ℚ) c p := by
    rw [totalDays]
    have hb : 3 ≤ baseProcessingDays c := by
      cases c <;> norm_num [baseProcessingDays]
    have hd : 0 ≤ workloadDelay (w : ℚ) := le_max_left 0 _
    have hp : (1 : ℚ) / 4 ≤ priorityAdjustment p := by
      cases p <;> norm_num [priorityAdjustment]
    have hpos : (0 : ℚ) <
        (baseProcessingDays c + workloadDelay (w : ℚ)) * priorityAdjustment p :=
      mul_pos (by linarith) (by linarith)
    have := Int.lt_ceil.mpr (show ((0 : ℤ) : ℚ) < _ by exact_mod_cast hpos)
    omega
  obtain ⟨-, -, h3, -, h5, -⟩ := skipWeekends_spec (today + totalDays (w : ℚ) c p)
  have heq : calculateEstimatedCompletion today (w : ℚ) c p =
      skipWeekends (today + totalDays (w : ℚ) c p) := rfl
  rw [heq]
  exact ⟨h1, by omega, h5⟩
